import Mathlib

/-!
Shallow embedding of the payment order lifecycle of the Z-StudioArt backend
(`src/backend/app/services/payment_service.py`,
`src/backend/app/services/payment_gateway.py`,
`src/backend/app/services/membership_service.py`).

Timestamps are modelled as integers counting seconds (the source uses UTC
`datetime` values; `timedelta(minutes=m)` is `m * 60` seconds and
`timedelta(days=d)` is `d * 86400` seconds).  Each service call receives the
ambient clock value `now` explicitly, standing for `datetime.now(timezone.utc)`
sampled during that call.

The source mutates a `PaymentOrder` held in an in-process dictionary keyed by
order id; every operation first looks the order up by id and then reads/writes
only that one order.  The embedding therefore passes the single affected order
explicitly and returns the updated order together with the exception raised, if
any (`PaymentOrder × Option PaymentError`): Python mutations performed before a
`raise` (the lazy `PENDING → EXPIRED` correction) are visible in the returned
order even when an error is reported.
-/

namespace ZStudioArt

/-- Membership tiers, from `app/models/schemas.py` (`MembershipTier`). -/
inductive MembershipTier
  | FREE
  | BASIC
  | PROFESSIONAL
deriving DecidableEq

/-- Modelled from the spec: the `SubscriptionPlan` enumeration is imported from
`app/models/schemas.py`, which under `src/` does not declare it.  Its four
values are the ones the spec lists (§3, "one of 4 enumerated values") and the
ones `payment_service.py` uses as dictionary keys. -/
inductive SubscriptionPlan
  | BASIC_MONTHLY
  | BASIC_YEARLY
  | PRO_MONTHLY
  | PRO_YEARLY
deriving DecidableEq

/-- Modelled from the spec: the `PaymentMethod` enumeration is imported from
`app/models/schemas.py`, which under `src/` does not declare it.  Its three
values are the three networks of the spec (§2) and the ones
`payment_gateway.py` dispatches on. -/
inductive PaymentMethod
  | ALIPAY
  | WECHAT
  | UNIONPAY
deriving DecidableEq

/-- Modelled from the spec: the `PaymentStatus` enumeration is imported from
`app/models/schemas.py`, which under `src/` does not declare it.  The spec
(§3, §4.1) enumerates its values as PENDING, PAID, FAILED, EXPIRED and a
declared-but-unreachable REFUNDED; the first four appear as
`PaymentStatus.PENDING` etc. in `payment_service.py`. -/
inductive PaymentStatus
  | PENDING
  | PAID
  | FAILED
  | EXPIRED
  | REFUNDED
deriving DecidableEq

/-- `PaymentOrder` model, from `app/models/database.py`. -/
structure PaymentOrder where
  id : String
  user_id : String
  plan : SubscriptionPlan
  method : PaymentMethod
  amount : Int
  status : PaymentStatus
  external_order_id : Option String
  paid_at : Option Int
  created_at : Int
  updated_at : Int
deriving DecidableEq

/-- `User` model (the membership fields this core reads and writes), from
`app/models/database.py`. -/
structure User where
  id : String
  membership_tier : MembershipTier
  membership_expiry : Option Int
  updated_at : Int
deriving DecidableEq

/-- `PLAN_PRICES` from `payment_service.py` (prices in minor units, 分). -/
def PLAN_PRICES : SubscriptionPlan → Int
  | .BASIC_MONTHLY => 2900
  | .BASIC_YEARLY => 29900
  | .PRO_MONTHLY => 9900
  | .PRO_YEARLY => 99900

/-- `PLAN_TIERS` from `payment_service.py`. -/
def PLAN_TIERS : SubscriptionPlan → MembershipTier
  | .BASIC_MONTHLY => .BASIC
  | .BASIC_YEARLY => .BASIC
  | .PRO_MONTHLY => .PROFESSIONAL
  | .PRO_YEARLY => .PROFESSIONAL

/-- `PLAN_DURATIONS` from `payment_service.py` (days). -/
def PLAN_DURATIONS : SubscriptionPlan → Int
  | .BASIC_MONTHLY => 30
  | .BASIC_YEARLY => 365
  | .PRO_MONTHLY => 30
  | .PRO_YEARLY => 365

/-- `ORDER_EXPIRY_MINUTES` from `payment_service.py`. -/
def ORDER_EXPIRY_MINUTES : Int := 30

/-- Seconds in a day, for `timedelta(days=d)`. -/
def SECONDS_PER_DAY : Int := 86400

/-- The exceptions of `payment_service.py` that the order transitions raise. -/
inductive PaymentError
  | OrderNotFoundError
  | OrderExpiredError
  | InvalidOrderStatusError
deriving DecidableEq

/-- `PaymentService.create_order`: builds a fresh PENDING order with the plan
price snapshotted and null `external_order_id` / `paid_at`.  The generated
uuid and the calling user are passed in as `order_id` / `user_id`. -/
def create_order (now : Int) (order_id user_id : String)
    (plan : SubscriptionPlan) (method : PaymentMethod) : PaymentOrder :=
  { id := order_id
    user_id := user_id
    plan := plan
    method := method
    amount := PLAN_PRICES plan
    status := .PENDING
    external_order_id := none
    paid_at := none
    created_at := now
    updated_at := now }

/-- `PaymentService.is_order_expired`: non-PENDING orders are never expired;
a PENDING order is expired when `now` is strictly past
`created_at + ORDER_EXPIRY_MINUTES` minutes. -/
def is_order_expired (now : Int) (o : PaymentOrder) : Bool :=
  if o.status ≠ PaymentStatus.PENDING then
    false
  else
    decide (o.created_at + ORDER_EXPIRY_MINUTES * 60 < now)

/-- `PaymentService._update_order_status`: set the status and refresh
`updated_at`. -/
def update_order_status (now : Int) (o : PaymentOrder)
    (new_status : PaymentStatus) : PaymentOrder :=
  { o with status := new_status, updated_at := now }

/-- `PaymentService.mark_order_paid` on an existing order (the
`get_order_or_raise` lookup is factored out; `OrderNotFoundError` concerns
unknown ids only).  Expired orders are first transitioned to EXPIRED, then
`OrderExpiredError` is raised; non-PENDING orders raise
`InvalidOrderStatusError` unchanged; otherwise the order becomes PAID with
`external_order_id` and `paid_at` recorded. -/
def mark_order_paid (now : Int) (external_order_id : Option String)
    (o : PaymentOrder) : PaymentOrder × Option PaymentError :=
  if is_order_expired now o then
    (update_order_status now o .EXPIRED, some .OrderExpiredError)
  else if o.status ≠ PaymentStatus.PENDING then
    (o, some .InvalidOrderStatusError)
  else
    ({ o with
        status := .PAID
        external_order_id := external_order_id
        paid_at := some now
        updated_at := now }, none)

/-- `PaymentService.mark_order_failed` on an existing order: only a PENDING
order may transition to FAILED. -/
def mark_order_failed (now : Int) (o : PaymentOrder) :
    PaymentOrder × Option PaymentError :=
  if o.status ≠ PaymentStatus.PENDING then
    (o, some .InvalidOrderStatusError)
  else
    (update_order_status now o .FAILED, none)

/-- `PaymentService.get_order_status` on an existing order: the lazy read-time
correction transitions an expired PENDING order to EXPIRED before reporting
the status. -/
def get_order_status (now : Int) (o : PaymentOrder) :
    PaymentStatus × PaymentOrder :=
  if o.status = PaymentStatus.PENDING ∧ is_order_expired now o = true then
    let o2 := update_order_status now o .EXPIRED
    (o2.status, o2)
  else
    (o.status, o)

/-- One mutating/reading call on a single order, used to close the set of
reachable orders under the operations the claims quantify over. -/
inductive ServiceOp
  | markPaid (now : Int) (external_order_id : Option String)
  | markFailed (now : Int)
  | getStatus (now : Int)

/-- The order state left behind by one `ServiceOp` (errors and returned
statuses discarded; Python mutates the stored order in place). -/
def applyOp (op : ServiceOp) (o : PaymentOrder) : PaymentOrder :=
  match op with
  | .markPaid n e => (mark_order_paid n e o).1
  | .markFailed n => (mark_order_failed n o).1
  | .getStatus n => (get_order_status n o).2

/-- The order state after a sequence of `ServiceOp` calls. -/
def applyOps (ops : List ServiceOp) (o : PaymentOrder) : PaymentOrder :=
  ops.foldl (fun acc op => applyOp op acc) o

/-- The per-call results of a sequence of `mark_order_paid` calls
`(now, external_order_id)` on one order, together with the final order. -/
def run_mark_paid_calls (calls : List (Int × Option String))
    (o : PaymentOrder) : PaymentOrder × List (Option PaymentError) :=
  match calls with
  | [] => (o, [])
  | c :: rest =>
      let r := mark_order_paid c.1 c.2 o
      let rr := run_mark_paid_calls rest r.1
      (rr.1, r.2 :: rr.2)

/-- `PaymentService.calculate_membership_expiry`: stack on a strictly-future
current expiry, otherwise reset from `now`; either way add the plan's
duration in days. -/
def calculate_membership_expiry (now : Int) (plan : SubscriptionPlan)
    (current_expiry : Option Int) : Int :=
  let duration_days := PLAN_DURATIONS plan
  let base_date : Int :=
    match current_expiry with
    | some t => if now < t then t else now
    | none => now
  base_date + duration_days * SECONDS_PER_DAY

/-- `PaymentService.upgrade_user_membership`: unconditionally set the plan's
tier and the recomputed expiry. -/
def upgrade_user_membership (now : Int) (u : User)
    (plan : SubscriptionPlan) : User :=
  { u with
      membership_tier := PLAN_TIERS plan
      membership_expiry := some (calculate_membership_expiry now plan u.membership_expiry)
      updated_at := now }

/-- `CallbackResult` from `payment_gateway.py`; `paid_at` is the parsed
payment time (None when absent or unparseable, as in the source). -/
structure CallbackResult where
  success : Bool
  order_id : Option String := none
  external_order_id : Option String := none
  amount : Option Int := none
  paid_at : Option Int := none
  error_message : Option String := none
deriving DecidableEq

/-- The failure reported by `process_payment_success`: either one of the
`mark_order_paid` exceptions, or an exception escaping the
`upgrade_user_membership` step after the order is already PAID. -/
inductive ProcessError
  | payment (e : PaymentError)
  | upgradeFailure
deriving DecidableEq

/-- `PaymentService.process_payment_success` on an existing order: mark the
order paid, then (when a user was supplied) upgrade the membership.  The
upgrade step writes only user fields; whether it raises — modelled by the
`upgrade_raises` flag, since the exception source (a failed user write) is
outside this core — an exception there leaves the already-updated order
untouched. -/
def process_payment_success (now : Int) (external_order_id : Option String)
    (user_present upgrade_raises : Bool) (o : PaymentOrder) :
    PaymentOrder × Option ProcessError :=
  match mark_order_paid now external_order_id o with
  | (o2, some e) => (o2, some (.payment e))
  | (o2, none) =>
      if user_present && upgrade_raises then (o2, some .upgradeFailure)
      else (o2, none)

/-- `PaymentService.process_callback` on the order the verified callback
references: a failed verification returns `(False, None, error)` without
touching the order; otherwise `process_payment_success` runs inside
`try/except`, so its exception turns into a `(False, None, str(e))` return
while the order keeps whatever state that call left it in.  The result pairs
the returned `(success, order)` with the stored order's final state. -/
def process_callback (now : Int) (vr : CallbackResult)
    (user_present upgrade_raises : Bool) (o : PaymentOrder) :
    (Bool × Option PaymentOrder) × PaymentOrder :=
  if vr.success = false then
    ((false, none), o)
  else
    match process_payment_success now vr.external_order_id
        user_present upgrade_raises o with
    | (o2, none) => ((true, some o2), o2)
    | (o2, some _) => ((false, none), o2)

/-- `PaymentRequest` from `payment_gateway.py`. -/
structure PaymentRequest where
  order_id : String
  amount : Int
  subject : String
  body : String
  user_id : String
deriving DecidableEq

/-- `PaymentResult` from `payment_gateway.py`. -/
structure PaymentResult where
  success : Bool
  payment_url : Option String := none
  qrcode_url : Option String := none
  qrcode_content : Option String := none
  error_message : Option String := none
  external_order_id : Option String := none
deriving DecidableEq

/-- Insertion step for `sorted(params.items())` (sorting by key with the
tie-keeping order of Python's stable sort; callers below never pass duplicate
keys). -/
def insertParam (p : String × String) :
    List (String × String) → List (String × String)
  | [] => [p]
  | q :: rest =>
      if q.1 < p.1 then q :: insertParam p rest
      else p :: q :: rest

/-- `sorted(params.items())`: sort the parameter list by key. -/
def sortParams : List (String × String) → List (String × String)
  | [] => []
  | p :: rest => insertParam p (sortParams rest)

/-- The canonical string both `_sign` methods build:
`"&".join(f"k=v" for sorted items with non-empty value)`. -/
def sign_string (params : List (String × String)) : String :=
  String.intercalate "&"
    (((sortParams params).filter (fun p => !p.2.isEmpty)).map
      (fun p => p.1 ++ "=" ++ p.2))

/-- `urllib.parse.urlencode` as used to build the redirect URLs.  Percent
escaping of reserved characters is omitted: no claim (and no code in this
core) reads the URL text back. -/
def urlencode (params : List (String × String)) : String :=
  String.intercalate "&" (params.map (fun p => p.1 ++ "=" ++ p.2))

/-- `f"{amount / 100:.2f}"`: cents rendered as a yuan amount with two decimal
places (the callers only ever pass the positive plan prices). -/
def yuanString (cents : Int) : String :=
  let r := (cents % 100).natAbs
  toString (cents / 100) ++ "." ++
    (if r < 10 then "0" ++ toString r else toString r)

/-- `AlipayGateway` configuration (each field defaults to the corresponding
`settings` entry of `app/core/config.py`, a `str` defaulting to `""`; Python's
`if not self.app_id` is the `isEmpty` test on these strings). -/
structure AlipayGateway where
  app_id : String
  private_key : String
  public_key : String
  notify_url : String
  return_url : String
  sandbox : Bool
deriving DecidableEq

def AlipayGateway.SANDBOX_GATEWAY : String :=
  "https://openapi-sandbox.dl.alipaydev.com/gateway.do"

def AlipayGateway.PRODUCTION_GATEWAY : String :=
  "https://openapi.alipay.com/gateway.do"

def AlipayGateway.gateway_url (g : AlipayGateway) : String :=
  if g.sandbox then AlipayGateway.SANDBOX_GATEWAY
  else AlipayGateway.PRODUCTION_GATEWAY

/-- `AlipayGateway._sign`: SHA-256 of the canonical string when no private key
is configured (also the `ImportError` fallback), RSA2 over it otherwise.  The
two cryptographic primitives (`hashlib.sha256` and pycryptodome's
`pkcs1_15` signing) are external library code, passed in as `sha256hex` /
`rsa_sign`. -/
def AlipayGateway.sign (g : AlipayGateway)
    (sha256hex rsa_sign : String → String)
    (params : List (String × String)) : String :=
  let s := sign_string params
  if g.private_key.isEmpty then sha256hex s else rsa_sign s

/-- The `json.dumps(biz_content)` string of `AlipayGateway.create_payment`. -/
def alipay_biz_content (request : PaymentRequest) : String :=
  "\x7b\"out_trade_no\": \"" ++ request.order_id ++
  "\", \"total_amount\": \"" ++ yuanString request.amount ++
  "\", \"subject\": \"" ++ request.subject ++
  "\", \"body\": \"" ++ request.body ++
  "\", \"product_code\": \"FAST_INSTANT_TRADE_PAY\"\x7d"

/-- `AlipayGateway.create_payment`: a missing `app_id` is an expected business
failure reported as `success=False` with an error message, never an
exception; otherwise the signed redirect URL is returned.  `timestamp` is the
`datetime.now().strftime(...)` string. -/
def AlipayGateway.create_payment (g : AlipayGateway)
    (sha256hex rsa_sign : String → String) (timestamp : String)
    (request : PaymentRequest) : PaymentResult :=
  if g.app_id.isEmpty then
    { success := false
      error_message := some "Alipay not configured: missing app_id" }
  else
    let params : List (String × String) :=
      [("app_id", g.app_id),
       ("method", "alipay.trade.page.pay"),
       ("format", "JSON"),
       ("charset", "utf-8"),
       ("sign_type", "RSA2"),
       ("timestamp", timestamp),
       ("version", "1.0"),
       ("notify_url", g.notify_url),
       ("return_url", g.return_url),
       ("biz_content", alipay_biz_content request)]
    let signed := params ++ [("sign", g.sign sha256hex rsa_sign params)]
    { success := true
      payment_url := some (g.gateway_url ++ "?" ++ urlencode signed)
      external_order_id := some request.order_id }

/-- `WeChatPayGateway` configuration (fields default to `settings` strings
defaulting to `""`). -/
structure WeChatPayGateway where
  app_id : String
  mch_id : String
  api_key : String
  cert_serial_no : String
  private_key : String
  notify_url : String
  sandbox : Bool
deriving DecidableEq

/-- `WeChatPayGateway._verify_callback_sign`: the source returns `True`
unconditionally ("In production, verify using WeChat Pay platform
certificate / For now, return True for testing"). -/
def WeChatPayGateway.verify_callback_sign (timestamp nonce body signature :
    String) : Bool :=
  true

/-- `WeChatPayGateway.create_payment`: a missing `app_id` or `mch_id` is an
expected business failure reported as `success=False` with an error message;
otherwise the mock Native-payment QR content is returned (the request body,
timestamp and nonce the source also computes do not flow into the result). -/
def WeChatPayGateway.create_payment (g : WeChatPayGateway)
    (request : PaymentRequest) : PaymentResult :=
  if g.app_id.isEmpty || g.mch_id.isEmpty then
    { success := false
      error_message := some "WeChat Pay not configured: missing app_id or mch_id" }
  else
    { success := true
      qrcode_content := some ("weixin://wxpay/bizpayurl?pr=" ++ request.order_id)
      external_order_id := some request.order_id }

/-- A decrypted WeChat Pay callback payload, with exactly the fields
`WeChatPayGateway.verify_callback` reads, plus the signature material of the
raw delivery (headers/`signature`), which that method never consults.
`amount_total` is `data["amount"]["total"]` and `success_time` the parsed
RFC3339 payment time (`none` when absent or unparseable). -/
structure WeChatCallbackData where
  signature : Option String := none
  trade_state : Option String := none
  out_trade_no : Option String := none
  transaction_id : Option String := none
  amount_total : Option Int := none
  success_time : Option Int := none
deriving DecidableEq

/-- `WeChatPayGateway.verify_callback`: checks only `trade_state == "SUCCESS"`
and then trusts every payload field; no signature verification happens on any
path. -/
def WeChatPayGateway.verify_callback (data : WeChatCallbackData) :
    CallbackResult :=
  let trade_state := data.trade_state.getD ""
  if trade_state ≠ "SUCCESS" then
    { success := false
      error_message := some ("Trade not successful: " ++ trade_state) }
  else
    { success := true
      order_id := some (data.out_trade_no.getD "")
      external_order_id := some (data.transaction_id.getD "")
      amount := some (data.amount_total.getD 0)
      paid_at := data.success_time }

/-- `UnionPayGateway` configuration (fields default to `settings` strings
defaulting to `""`). -/
structure UnionPayGateway where
  merchant_id : String
  cert_path : String
  cert_password : String
  notify_url : String
  return_url : String
  sandbox : Bool
deriving DecidableEq

def UnionPayGateway.SANDBOX_GATEWAY : String :=
  "https://gateway.test.95516.com/gateway/api/frontTransReq.do"

def UnionPayGateway.PRODUCTION_GATEWAY : String :=
  "https://gateway.95516.com/gateway/api/frontTransReq.do"

def UnionPayGateway.gateway_url (g : UnionPayGateway) : String :=
  if g.sandbox then UnionPayGateway.SANDBOX_GATEWAY
  else UnionPayGateway.PRODUCTION_GATEWAY

/-- `UnionPayGateway._sign`: SHA-256 of the canonical parameter string
(`sha256hex` is `hashlib.sha256(...).hexdigest`). -/
def UnionPayGateway.sign (sha256hex : String → String)
    (params : List (String × String)) : String :=
  sha256hex (sign_string params)

/-- `UnionPayGateway.create_payment`: a missing `merchant_id` is an expected
business failure reported as `success=False` with an error message; otherwise
the signed redirect URL is returned, with the order id truncated to
UnionPay's 32-character limit.  `timestamp` is the
`datetime.now().strftime("%Y%m%d%H%M%S")` string. -/
def UnionPayGateway.create_payment (g : UnionPayGateway)
    (sha256hex : String → String) (timestamp : String)
    (request : PaymentRequest) : PaymentResult :=
  if g.merchant_id.isEmpty then
    { success := false
      error_message := some "UnionPay not configured: missing merchant_id" }
  else
    let order_id := request.order_id.take 32
    let params : List (String × String) :=
      [("version", "5.1.0"),
       ("encoding", "UTF-8"),
       ("signMethod", "01"),
       ("txnType", "01"),
       ("txnSubType", "01"),
       ("bizType", "000201"),
       ("channelType", "07"),
       ("merId", g.merchant_id),
       ("orderId", order_id),
       ("txnTime", timestamp),
       ("txnAmt", toString request.amount),
       ("currencyCode", "156"),
       ("frontUrl", g.return_url),
       ("backUrl", g.notify_url),
       ("orderDesc", request.subject)]
    let signed := params ++ [("signature", UnionPayGateway.sign sha256hex params)]
    { success := true
      payment_url := some (g.gateway_url ++ "?" ++ urlencode signed)
      external_order_id := some order_id }

/-- A UnionPay callback payload, with exactly the fields
`UnionPayGateway.verify_callback` reads.  `txnAmt` is the parsed
`int(data.get("txnAmt", "0"))` and `txnTime` the parsed payment time (`none`
when absent or unparseable). -/
structure UnionPayCallbackData where
  signature : Option String := none
  respCode : Option String := none
  respMsg : Option String := none
  orderId : Option String := none
  queryId : Option String := none
  txnAmt : Option Int := none
  txnTime : Option Int := none
deriving DecidableEq

/-- `UnionPayGateway._verify_sign`: the source returns `True` unconditionally
("In production, verify using UnionPay public key"). -/
def UnionPayGateway.verify_sign (params : UnionPayCallbackData)
    (signature : String) : Bool :=
  true

/-- `UnionPayGateway.verify_callback`: runs the always-true signature stub,
then checks `respCode == "00"` and trusts the payload fields. -/
def UnionPayGateway.verify_callback (data : UnionPayCallbackData) :
    CallbackResult :=
  let signature := data.signature.getD ""
  if UnionPayGateway.verify_sign data signature = false then
    { success := false, error_message := some "Invalid signature" }
  else if data.respCode.getD "" ≠ "00" then
    { success := false
      error_message := some ("Payment failed: " ++ data.respMsg.getD "") }
  else
    { success := true
      order_id := some (data.orderId.getD "")
      external_order_id := some (data.queryId.getD "")
      amount := some (data.txnAmt.getD 0)
      paid_at := data.txnTime }

/-- `MembershipService.is_subscription_expired`: FREE users and users with a
null `membership_expiry` are never expired; otherwise compare with `now`. -/
def is_subscription_expired (now : Int) (u : User) : Bool :=
  if u.membership_tier = MembershipTier.FREE then
    false
  else
    match u.membership_expiry with
    | none => false
    | some expiry => decide (expiry < now)

/-- `MembershipService.check_and_downgrade_if_expired`: downgrade the tier to
FREE (leaving `membership_expiry` as it was) exactly when the subscription is
expired; the Bool reports whether a downgrade happened. -/
def check_and_downgrade_if_expired (now : Int) (u : User) : Bool × User :=
  if is_subscription_expired now u then
    (true, { u with membership_tier := .FREE, updated_at := now })
  else
    (false, u)

/-! ## Helper lemmas -/

lemma is_order_expired_spec (now : Int) (o : PaymentOrder) :
    is_order_expired now o = true ↔
      (o.status = PaymentStatus.PENDING ∧
        o.created_at + ORDER_EXPIRY_MINUTES * 60 < now) := by
  unfold is_order_expired
  split
  · rename_i hs
    simp only [Bool.false_eq_true, false_iff]
    intro hc
    exact hs hc.1
  · rename_i hs
    rw [not_ne_iff] at hs
    simp [hs]

lemma mark_order_paid_of_ne_pending (now : Int) (e : Option String)
    (o : PaymentOrder) (h : o.status ≠ PaymentStatus.PENDING) :
    mark_order_paid now e o = (o, some PaymentError.InvalidOrderStatusError) := by
  unfold mark_order_paid is_order_expired
  simp [h]

lemma run_mark_paid_calls_of_ne_pending (calls : List (Int × Option String))
    (o : PaymentOrder) (h : o.status ≠ PaymentStatus.PENDING) :
    run_mark_paid_calls calls o =
      (o, calls.map fun _ => some PaymentError.InvalidOrderStatusError) := by
  induction calls with
  | nil => simp [run_mark_paid_calls]
  | cons c rest ih =>
      simp [run_mark_paid_calls, mark_order_paid_of_ne_pending c.1 c.2 o h, ih]

lemma mark_order_paid_success (now : Int) (e : Option String)
    (o : PaymentOrder) (hp : o.status = PaymentStatus.PENDING)
    (ht : ¬ (o.created_at + ORDER_EXPIRY_MINUTES * 60 < now)) :
    mark_order_paid now e o =
      ({ o with
          status := .PAID
          external_order_id := e
          paid_at := some now
          updated_at := now }, none) := by
  unfold mark_order_paid is_order_expired
  simp [hp, ht]

/-! ## C1: idempotent settlement -/

/-- C1: for every order created by `create_order` and every sequence of two or
more `mark_order_paid` calls on it, each within the 30-minute window of
`created_at`, exactly the first call succeeds — setting status PAID, `paid_at`
to that call's time and `external_order_id` to that call's argument — and
every subsequent call raises `InvalidOrderStatusError`, leaving the order
(including `paid_at` and `external_order_id`) exactly as the first call set
it. -/
theorem mark_order_paid_idempotent
    (c n1 : Int) (order_id user_id : String) (plan : SubscriptionPlan)
    (method : PaymentMethod) (e1 : Option String)
    (rest : List (Int × Option String))
    (h1 : n1 - c < ORDER_EXPIRY_MINUTES * 60)
    (hrest : ∀ p ∈ rest, p.1 - c < ORDER_EXPIRY_MINUTES * 60) :
    run_mark_paid_calls ((n1, e1) :: rest)
        (create_order c order_id user_id plan method) =
      ({ create_order c order_id user_id plan method with
           status := .PAID
           external_order_id := e1
           paid_at := some n1
           updated_at := n1 },
       none :: rest.map (fun _ => some PaymentError.InvalidOrderStatusError)) := by
  have hp : (create_order c order_id user_id plan method).status =
      PaymentStatus.PENDING := rfl
  have ht : ¬ ((create_order c order_id user_id plan method).created_at +
      ORDER_EXPIRY_MINUTES * 60 < n1) := by
    show ¬ (c + ORDER_EXPIRY_MINUTES * 60 < n1)
    omega
  have hfirst := mark_order_paid_success n1 e1
    (create_order c order_id user_id plan method) hp ht
  have hpaid : ({ create_order c order_id user_id plan method with
      status := PaymentStatus.PAID
      external_order_id := e1
      paid_at := some n1
      updated_at := n1 }).status ≠ PaymentStatus.PENDING := by
    intro hcon
    exact PaymentStatus.noConfusion hcon
  simp [run_mark_paid_calls, hfirst,
    run_mark_paid_calls_of_ne_pending rest _ hpaid]

/-- Witness for C1 at a concrete order and two concrete calls. -/
theorem mark_order_paid_idempotent_witness :
    run_mark_paid_calls [(60, some "net-a"), (120, some "net-b")]
        (create_order 0 "o1" "u1" SubscriptionPlan.BASIC_MONTHLY
          PaymentMethod.ALIPAY) =
      ({ create_order 0 "o1" "u1" SubscriptionPlan.BASIC_MONTHLY
            PaymentMethod.ALIPAY with
           status := .PAID
           external_order_id := some "net-a"
           paid_at := some 60
           updated_at := 60 },
       [none, some PaymentError.InvalidOrderStatusError]) :=
  mark_order_paid_idempotent 0 60 "o1" "u1" SubscriptionPlan.BASIC_MONTHLY
    PaymentMethod.ALIPAY (some "net-a") [(120, some "net-b")]
    (by decide) (by decide)

/-! ## C3: expiry precedence -/

/-- C3: a still-PENDING order whose `created_at` lies more than the 30-minute
expiry window before `now` makes any `mark_order_paid` call transition the
order to EXPIRED and raise `OrderExpiredError`, never succeed — for every
`external_order_id` argument. -/
theorem mark_order_paid_expired (now : Int) (e : Option String)
    (o : PaymentOrder) (hp : o.status = PaymentStatus.PENDING)
    (ht : o.created_at + ORDER_EXPIRY_MINUTES * 60 < now) :
    mark_order_paid now e o =
      ({ o with status := .EXPIRED, updated_at := now },
       some PaymentError.OrderExpiredError) := by
  unfold mark_order_paid is_order_expired update_order_status
  simp [hp, ht]

/-- Witness for C3: a PENDING order created at time 0, marked at 1801 seconds. -/
theorem mark_order_paid_expired_witness :
    mark_order_paid 1801 (some "net-x")
        (create_order 0 "o2" "u2" SubscriptionPlan.PRO_YEARLY
          PaymentMethod.UNIONPAY) =
      ({ create_order 0 "o2" "u2" SubscriptionPlan.PRO_YEARLY
            PaymentMethod.UNIONPAY with
           status := .EXPIRED
           updated_at := 1801 },
       some PaymentError.OrderExpiredError) :=
  mark_order_paid_expired 1801 (some "net-x")
    (create_order 0 "o2" "u2" SubscriptionPlan.PRO_YEARLY
      PaymentMethod.UNIONPAY) rfl (by decide)

/-! ## C4: order field invariant -/

/-- The invariant that actually holds of every reachable order: a PENDING
order has null `paid_at` and null `external_order_id`; `paid_at` is non-null
exactly on PAID orders; a non-null `external_order_id` only occurs on PAID
orders. -/
def orderFieldInv (o : PaymentOrder) : Prop :=
  (o.status = PaymentStatus.PENDING →
    o.paid_at = none ∧ o.external_order_id = none)
  ∧ (o.paid_at ≠ none ↔ o.status = PaymentStatus.PAID)
  ∧ (o.external_order_id ≠ none → o.status = PaymentStatus.PAID)

lemma orderFieldInv_mark_order_paid (n : Int) (e : Option String)
    (o : PaymentOrder) (h : orderFieldInv o) :
    orderFieldInv (mark_order_paid n e o).1 := by
  obtain ⟨h1, h2, h3⟩ := h
  unfold mark_order_paid
  split
  · rename_i hexp
    obtain ⟨hpa, hex⟩ := h1 ((is_order_expired_spec n o).1 hexp).1
    unfold update_order_status orderFieldInv
    simp [hpa, hex]
  · split
    · exact ⟨h1, h2, h3⟩
    · unfold orderFieldInv
      simp

lemma orderFieldInv_mark_order_failed (n : Int) (o : PaymentOrder)
    (h : orderFieldInv o) : orderFieldInv (mark_order_failed n o).1 := by
  obtain ⟨h1, h2, h3⟩ := h
  unfold mark_order_failed
  split
  · exact ⟨h1, h2, h3⟩
  · rename_i hne
    rw [not_ne_iff] at hne
    obtain ⟨hpa, hex⟩ := h1 hne
    unfold update_order_status orderFieldInv
    simp [hpa, hex]

lemma orderFieldInv_get_order_status (n : Int) (o : PaymentOrder)
    (h : orderFieldInv o) : orderFieldInv (get_order_status n o).2 := by
  obtain ⟨h1, h2, h3⟩ := h
  unfold get_order_status
  split
  · rename_i hc
    obtain ⟨hpa, hex⟩ := h1 hc.1
    unfold update_order_status orderFieldInv
    simp [hpa, hex]
  · exact ⟨h1, h2, h3⟩

lemma orderFieldInv_applyOp (op : ServiceOp) (o : PaymentOrder)
    (h : orderFieldInv o) : orderFieldInv (applyOp op o) := by
  cases op with
  | markPaid n e => exact orderFieldInv_mark_order_paid n e o h
  | markFailed n => exact orderFieldInv_mark_order_failed n o h
  | getStatus n => exact orderFieldInv_get_order_status n o h

lemma orderFieldInv_applyOps (ops : List ServiceOp) (o : PaymentOrder)
    (h : orderFieldInv o) : orderFieldInv (applyOps ops o) := by
  induction ops generalizing o with
  | nil => exact h
  | cons op rest ih =>
      exact ih (applyOp op o) (orderFieldInv_applyOp op o h)

/-- Counterexample to C4 as stated: after `create_order` then
`mark_order_failed`, the order's status is FAILED (not PENDING) while its
`paid_at` is still null, so `status == PENDING` and `paid_at == null` are not
equivalent on reachable orders. -/
theorem order_field_equivalence_cex :
    ¬ (((applyOps [ServiceOp.markFailed 5]
          (create_order 0 "o1" "u1" SubscriptionPlan.BASIC_MONTHLY
            PaymentMethod.ALIPAY)).status = PaymentStatus.PENDING) ↔
       ((applyOps [ServiceOp.markFailed 5]
          (create_order 0 "o1" "u1" SubscriptionPlan.BASIC_MONTHLY
            PaymentMethod.ALIPAY)).paid_at = none)) := by
  decide

/-- C4 (amended): for every order reachable by `create_order` followed by any
sequence of `mark_order_paid`, `mark_order_failed` and `get_order_status`
operations, a PENDING status implies null `paid_at` and null
`external_order_id`; `paid_at` is non-null exactly when the status is PAID;
and a non-null `external_order_id` implies status PAID.  (The claimed
three-way equivalence fails on FAILED/EXPIRED orders, whose `paid_at` and
`external_order_id` stay null, and `mark_order_paid` called with a null
`external_order_id` produces a PAID order with null `external_order_id`.) -/
theorem order_field_invariant (now : Int) (order_id user_id : String)
    (plan : SubscriptionPlan) (method : PaymentMethod)
    (ops : List ServiceOp) :
    orderFieldInv (applyOps ops (create_order now order_id user_id plan method)) := by
  apply orderFieldInv_applyOps
  unfold orderFieldInv create_order
  refine ⟨fun _ => ⟨rfl, rfl⟩, ?_, ?_⟩
  · simp
  · intro hcon
    simp at hcon

/-- Witness for C4 (amended): the invariant evaluated on the concrete order
obtained by creating and then successfully paying (with a concrete
`external_order_id`); its `paid_at` is non-null and its status is PAID. -/
theorem order_field_invariant_witness :
    (applyOps [ServiceOp.markPaid 60 (some "net-a")]
        (create_order 0 "o1" "u1" SubscriptionPlan.BASIC_MONTHLY
          PaymentMethod.ALIPAY)).status = PaymentStatus.PAID :=
  ((order_field_invariant 0 "o1" "u1" SubscriptionPlan.BASIC_MONTHLY
      PaymentMethod.ALIPAY [ServiceOp.markPaid 60 (some "net-a")]).2.1).1
    (by decide)

/-! ## C9: REFUNDED is unreachable -/

lemma applyOp_status_cases (op : ServiceOp) (o : PaymentOrder) :
    (applyOp op o).status = o.status ∨
    (applyOp op o).status = PaymentStatus.PAID ∨
    (applyOp op o).status = PaymentStatus.FAILED ∨
    (applyOp op o).status = PaymentStatus.EXPIRED := by
  cases op <;>
    unfold applyOp mark_order_paid mark_order_failed get_order_status
      update_order_status <;>
    (repeat' split) <;> simp

lemma applyOps_ne_refunded (ops : List ServiceOp) (o : PaymentOrder)
    (h : o.status ≠ PaymentStatus.REFUNDED) :
    (applyOps ops o).status ≠ PaymentStatus.REFUNDED := by
  induction ops generalizing o with
  | nil => exact h
  | cons op rest ih =>
      refine ih (applyOp op o) ?_
      rcases applyOp_status_cases op o with hc | hc | hc | hc <;> rw [hc]
      · exact h
      all_goals intro hcon; exact PaymentStatus.noConfusion hcon

/-- C9: every order reachable by `create_order` followed by any sequence of
`mark_order_paid`, `mark_order_failed` and `get_order_status` operations has
status PENDING, PAID, FAILED or EXPIRED — no operation ever assigns
REFUNDED. -/
theorem refunded_unreachable (now : Int) (order_id user_id : String)
    (plan : SubscriptionPlan) (method : PaymentMethod)
    (ops : List ServiceOp) :
    (applyOps ops (create_order now order_id user_id plan method)).status =
        PaymentStatus.PENDING ∨
    (applyOps ops (create_order now order_id user_id plan method)).status =
        PaymentStatus.PAID ∨
    (applyOps ops (create_order now order_id user_id plan method)).status =
        PaymentStatus.FAILED ∨
    (applyOps ops (create_order now order_id user_id plan method)).status =
        PaymentStatus.EXPIRED := by
  have h := applyOps_ne_refunded ops
    (create_order now order_id user_id plan method)
    (fun hcon => PaymentStatus.noConfusion hcon)
  cases hs : (applyOps ops (create_order now order_id user_id plan method)).status
  · exact Or.inl rfl
  · exact Or.inr (Or.inl rfl)
  · exact Or.inr (Or.inr (Or.inl rfl))
  · exact Or.inr (Or.inr (Or.inr rfl))
  · exact absurd hs h

/-! ## C5: membership expiry arithmetic -/

/-- C5: with D the plan's duration in days, `calculate_membership_expiry`
returns `current_expiry + D` days when `current_expiry` is non-null and
strictly in the future (stacking), and `now + D` days when it is null, equal
to `now`, or in the past (reset). -/
theorem calculate_membership_expiry_cases (plan : SubscriptionPlan)
    (now : Int) (current_expiry : Option Int) :
    (∀ t, current_expiry = some t → now < t →
        calculate_membership_expiry now plan current_expiry =
          t + PLAN_DURATIONS plan * SECONDS_PER_DAY) ∧
    ((current_expiry = none ∨ ∃ t, current_expiry = some t ∧ t ≤ now) →
        calculate_membership_expiry now plan current_expiry =
          now + PLAN_DURATIONS plan * SECONDS_PER_DAY) := by
  constructor
  · rintro t rfl hlt
    unfold calculate_membership_expiry
    simp [hlt]
  · rintro (rfl | ⟨t, rfl, hle⟩)
    · rfl
    · unfold calculate_membership_expiry
      simp [not_lt.2 hle]

/-- Witness for C5: a future expiry stacks, a null expiry resets from now. -/
theorem calculate_membership_expiry_cases_witness :
    calculate_membership_expiry 0 SubscriptionPlan.BASIC_MONTHLY (some 100) =
        100 + 30 * 86400 ∧
    calculate_membership_expiry 50 SubscriptionPlan.PRO_YEARLY none =
        50 + 365 * 86400 :=
  ⟨(calculate_membership_expiry_cases SubscriptionPlan.BASIC_MONTHLY 0
      (some 100)).1 100 rfl (by decide),
   (calculate_membership_expiry_cases SubscriptionPlan.PRO_YEARLY 50 none).2
      (Or.inl rfl)⟩

/-! ## C6: PAID is never rolled back -/

/-- C6: when `mark_order_paid` succeeds in `process_payment_success` and the
subsequent `upgrade_user_membership` call raises, the order stays PAID with
the `paid_at` and `external_order_id` the successful mark set; going through
`process_callback`, the exception turns into a `(False, None)` return while
the stored order keeps that same PAID state. -/
theorem paid_status_never_rolled_back (now : Int) (vr : CallbackResult)
    (o : PaymentOrder) (hp : o.status = PaymentStatus.PENDING)
    (ht : ¬ (o.created_at + ORDER_EXPIRY_MINUTES * 60 < now))
    (hv : vr.success = true) :
    process_payment_success now vr.external_order_id true true o =
      ({ o with
           status := .PAID
           external_order_id := vr.external_order_id
           paid_at := some now
           updated_at := now },
       some ProcessError.upgradeFailure) ∧
    process_callback now vr true true o =
      ((false, none),
       { o with
           status := .PAID
           external_order_id := vr.external_order_id
           paid_at := some now
           updated_at := now }) := by
  have hm := mark_order_paid_success now vr.external_order_id o hp ht
  have hpps : process_payment_success now vr.external_order_id true true o =
      ({ o with
           status := .PAID
           external_order_id := vr.external_order_id
           paid_at := some now
           updated_at := now },
       some ProcessError.upgradeFailure) := by
    unfold process_payment_success
    rw [hm]
    rfl
  refine ⟨hpps, ?_⟩
  unfold process_callback
  rw [hpps]
  simp [hv]

/-- Witness for C6 at a concrete fresh order and verified callback. -/
theorem paid_status_never_rolled_back_witness :
    process_payment_success 60 (some "net-a") true true
        (create_order 0 "o1" "u1" SubscriptionPlan.BASIC_MONTHLY
          PaymentMethod.ALIPAY) =
      ({ create_order 0 "o1" "u1" SubscriptionPlan.BASIC_MONTHLY
            PaymentMethod.ALIPAY with
           status := .PAID
           external_order_id := some "net-a"
           paid_at := some 60
           updated_at := 60 },
       some ProcessError.upgradeFailure) ∧
    process_callback 60 { success := true, external_order_id := some "net-a" }
        true true
        (create_order 0 "o1" "u1" SubscriptionPlan.BASIC_MONTHLY
          PaymentMethod.ALIPAY) =
      ((false, none),
       { create_order 0 "o1" "u1" SubscriptionPlan.BASIC_MONTHLY
            PaymentMethod.ALIPAY with
           status := .PAID
           external_order_id := some "net-a"
           paid_at := some 60
           updated_at := 60 }) :=
  paid_status_never_rolled_back 60
    { success := true, external_order_id := some "net-a" }
    (create_order 0 "o1" "u1" SubscriptionPlan.BASIC_MONTHLY
      PaymentMethod.ALIPAY) rfl (by decide) rfl

/-! ## C7: unconditional tier assignment -/

/-- C7: for every user and plan, `upgrade_user_membership` sets
`membership_tier` to exactly `PLAN_TIERS plan`, whatever the user's current
tier is (including a tier higher than the plan's target — there is no
keep-the-higher-tier comparison). -/
theorem upgrade_sets_plan_tier (now : Int) (u : User)
    (plan : SubscriptionPlan) :
    (upgrade_user_membership now u plan).membership_tier = PLAN_TIERS plan :=
  rfl

/-! ## C8: gateway initiation is total and result-valued -/

/-- An Alipay gateway with every credential left at the `settings` default. -/
def emptyAlipay : AlipayGateway :=
  { app_id := "", private_key := "", public_key := "", notify_url := ""
    return_url := "", sandbox := true }

/-- A WeChat Pay gateway with every credential left at the default. -/
def emptyWeChat : WeChatPayGateway :=
  { app_id := "", mch_id := "", api_key := "", cert_serial_no := ""
    private_key := "", notify_url := "", sandbox := false }

/-- A UnionPay gateway with every credential left at the default. -/
def emptyUnionPay : UnionPayGateway :=
  { merchant_id := "", cert_path := "", cert_password := "", notify_url := ""
    return_url := "", sandbox := true }

/-- A sample payment request. -/
def sampleRequest : PaymentRequest :=
  { order_id := "o1", amount := 2900, subject := "subj", body := "desc"
    user_id := "u1" }

/-- C8: each of the three adapters' `create_payment` is a total function into
`PaymentResult` (it can never raise for business failures), and with the
adapter's required credentials missing it returns `success=false` together
with a non-null human-readable `error_message`. -/
theorem create_payment_missing_credentials
    (a : AlipayGateway) (w : WeChatPayGateway) (up : UnionPayGateway)
    (sha256hex rsa_sign : String → String) (ts1 ts2 : String)
    (request : PaymentRequest)
    (ha : a.app_id.isEmpty = true)
    (hw : w.app_id.isEmpty = true ∨ w.mch_id.isEmpty = true)
    (hu : up.merchant_id.isEmpty = true) :
    ((a.create_payment sha256hex rsa_sign ts1 request).success = false ∧
     (a.create_payment sha256hex rsa_sign ts1 request).error_message =
       some "Alipay not configured: missing app_id") ∧
    ((w.create_payment request).success = false ∧
     (w.create_payment request).error_message =
       some "WeChat Pay not configured: missing app_id or mch_id") ∧
    ((up.create_payment sha256hex ts2 request).success = false ∧
     (up.create_payment sha256hex ts2 request).error_message =
       some "UnionPay not configured: missing merchant_id") := by
  refine ⟨?_, ?_, ?_⟩
  · unfold AlipayGateway.create_payment
    simp [ha]
  · unfold WeChatPayGateway.create_payment
    rcases hw with hw | hw <;> simp [hw]
  · unfold UnionPayGateway.create_payment
    simp [hu]

/-- Witness for C8 on the all-defaults (unconfigured) gateways. -/
theorem create_payment_missing_credentials_witness :
    ((emptyAlipay.create_payment id id "ts" sampleRequest).success = false ∧
     (emptyAlipay.create_payment id id "ts" sampleRequest).error_message =
       some "Alipay not configured: missing app_id") ∧
    ((emptyWeChat.create_payment sampleRequest).success = false ∧
     (emptyWeChat.create_payment sampleRequest).error_message =
       some "WeChat Pay not configured: missing app_id or mch_id") ∧
    ((emptyUnionPay.create_payment id "ts" sampleRequest).success = false ∧
     (emptyUnionPay.create_payment id "ts" sampleRequest).error_message =
       some "UnionPay not configured: missing merchant_id") :=
  create_payment_missing_credentials emptyAlipay emptyWeChat emptyUnionPay
    id id "ts" "ts" sampleRequest rfl (Or.inl rfl) rfl

/-! ## C10: null expiry means never expiring -/

/-- C10: a user with a non-FREE tier and a null `membership_expiry` is never
considered expired, and `check_and_downgrade_if_expired` reports no downgrade
and returns the user unchanged (both `membership_tier` and
`membership_expiry` intact). -/
theorem null_expiry_never_downgraded (now : Int) (u : User)
    (htier : u.membership_tier ≠ MembershipTier.FREE)
    (hexp : u.membership_expiry = none) :
    is_subscription_expired now u = false ∧
    check_and_downgrade_if_expired now u = (false, u) := by
  have h : is_subscription_expired now u = false := by
    unfold is_subscription_expired
    rw [hexp]
    simp
  refine ⟨h, ?_⟩
  unfold check_and_downgrade_if_expired
  rw [h]
  simp

/-- Witness for C10: a BASIC user with null expiry, checked far in the
future. -/
theorem null_expiry_never_downgraded_witness :
    is_subscription_expired 1000000000
        { id := "u1", membership_tier := .BASIC, membership_expiry := none
          updated_at := 0 } = false ∧
    check_and_downgrade_if_expired 1000000000
        { id := "u1", membership_tier := .BASIC, membership_expiry := none
          updated_at := 0 } =
      (false,
       { id := "u1", membership_tier := .BASIC, membership_expiry := none
         updated_at := 0 }) :=
  null_expiry_never_downgraded 1000000000
    { id := "u1", membership_tier := .BASIC, membership_expiry := none
      updated_at := 0 }
    (by decide) rfl

/-! ## C2: signature rejection fails on the code -/

/-- C2 evaluated at the failing inputs: a WeChat Pay callback with no
signature material at all is accepted (`verify_callback` never consults a
signature), a UnionPay callback with no signature is accepted (the signature
check is an unconditional-`True` stub), and feeding the unsigned WeChat
callback through `process_callback` transitions a PENDING order to PAID —
where the claim requires `success=false` and no transition. -/
theorem verify_callback_accepts_unsigned :
    (WeChatPayGateway.verify_callback
      { signature := none, trade_state := some "SUCCESS"
        out_trade_no := some "o1", transaction_id := some "tx1"
        amount_total := some 2900 }).success = true ∧
    (UnionPayGateway.verify_callback
      { signature := none, respCode := some "00", orderId := some "o1"
        queryId := some "q1", txnAmt := some 2900 }).success = true ∧
    (process_callback 60
        (WeChatPayGateway.verify_callback
          { signature := none, trade_state := some "SUCCESS"
            out_trade_no := some "o1", transaction_id := some "tx1"
            amount_total := some 2900 })
        false false
        (create_order 0 "o1" "u1" SubscriptionPlan.BASIC_MONTHLY
          PaymentMethod.WECHAT)).2.status = PaymentStatus.PAID := by
  refine ⟨rfl, rfl, ?_⟩
  decide

end ZStudioArt
